import Mathlib

/-!
Verification development for `server.py` of the projector repository: a
local control server that starts/stops a single external ffmpeg capture
process and serves the resulting HLS stream over HTTP.

The embedding is shallow: the single mutable global `_ffmpeg_proc` becomes
an explicit `Option Proc` threaded through the handler functions; external
effects (the subprocess's observable behaviour during the poll loop, the
filesystem, the outbound-socket IP discovery, and the parsed JSON request
body) become explicit environment parameters.  Every definition is
translated from the source file; doc comments cite the source lines.
-/

namespace Projector

/-! ### String helpers (Python `in`, `startswith`, `os.path` operations) -/

/-- Boolean test that the list `t` begins with the pattern `ps`
(Python `str.startswith`, elementwise). -/
def leads {α : Type} [DecidableEq α] : List α → List α → Bool
  | [], _ => true
  | _ :: _, [] => false
  | p :: ps, t :: ts => decide (p = t) && leads ps ts

/-- Boolean test that `pat` occurs contiguously inside `t`
(Python `sub in s`, elementwise on lists). -/
def occurs {α : Type} [DecidableEq α] (pat : List α) : List α → Bool
  | [] => pat.isEmpty
  | t :: ts => leads pat (t :: ts) || occurs pat ts

/-- Python `s.startswith(pre)` on strings. -/
def strLeads (s pre : String) : Bool := leads pre.data s.data

/-- Python `sub in s` substring containment on strings. -/
def pyIn (sub s : String) : Bool := occurs sub.data s.data

/-- Suffix of the list strictly after the last occurrence of `c`,
or `none` when `c` does not occur. -/
def suffixAfterLast {α : Type} [DecidableEq α] (c : α) : List α → Option (List α)
  | [] => none
  | x :: xs =>
    match suffixAfterLast c xs with
    | some s => some s
    | none => if x = c then some xs else none

/-- Suffix of the list starting at (and including) the last occurrence
of `'.'`, or `none` when no dot occurs. -/
def fromLastDot : List Char → Option (List Char)
  | [] => none
  | x :: xs =>
    match fromLastDot xs with
    | some s => some s
    | none => if x = '.' then some (x :: xs) else none

/-- Extension part of Python `os.path.splitext(p)[1]`: the suffix from the
last dot of the final path component, except that a run of leading dots of
that component never starts an extension. -/
def splitextExt (s : String) : String :=
  let base := (suffixAfterLast '/' s.data).getD s.data
  let tail := base.dropWhile (fun c => c = '.')
  match fromLastDot tail with
  | some suf => String.mk suf
  | none => ""

/-- Python `os.path.join(a, b)` for POSIX paths: an absolute `b` replaces
`a`; otherwise the parts are glued with exactly one separator. -/
def os_path_join (a b : String) : String :=
  if strLeads b "/" then b
  else if a = "" then b
  else if strLeads (String.mk a.data.reverse) "/" then a ++ b
  else a ++ "/" ++ b

/-! ### Constants of `server.py` (lines 17-18) -/

/-- Fixed HTTP control port (`CONTROL_PORT = 8000`). -/
def CONTROL_PORT : Nat := 8000

/-- Segment output directory (`HLS_DIR = "/tmp/projector-stream"`). -/
def HLS_DIR : String := "/tmp/projector-stream"

/-! ### JSON values

Parsed JSON values as consumed and produced by the handlers.  `int` covers
JSON numbers as they can occur in request bodies (the server itself only
ever emits strings, booleans and null). -/

inductive JVal : Type where
  | str (s : String)
  | bool (b : Bool)
  | int (n : Int)
  | null
  | arr (xs : List JVal)
  | obj (kvs : List (String × JVal))

mutual

/-- Python `str()` of a parsed JSON value, as used by the f-string
`f"\x7bsource_id\x7d:none"` in `start_stream` (line 69). -/
def pyStr : JVal → String
  | .str s => s
  | .bool b => if b then "True" else "False"
  | .int n => toString n
  | .null => "None"
  | .arr xs => "[" ++ pyReprSeq xs ++ "]"
  | .obj kvs => "\x7b" ++ pyReprPairs kvs ++ "\x7d"

/-- Python `repr()` of a parsed JSON value (string quoting ignores the
escaping of embedded quotes, which never arises in this development). -/
def pyRepr : JVal → String
  | .str s => "\x27" ++ s ++ "\x27"
  | .bool b => if b then "True" else "False"
  | .int n => toString n
  | .null => "None"
  | .arr xs => "[" ++ pyReprSeq xs ++ "]"
  | .obj kvs => "\x7b" ++ pyReprPairs kvs ++ "\x7d"

/-- Comma-separated `repr` of list elements. -/
def pyReprSeq : List JVal → String
  | [] => ""
  | [x] => pyRepr x
  | x :: y :: rest => pyRepr x ++ ", " ++ pyReprSeq (y :: rest)

/-- Comma-separated `repr` of dict entries. -/
def pyReprPairs : List (String × JVal) → String
  | [] => ""
  | [(k, v)] => "\x27" ++ k ++ "\x27: " ++ pyRepr v
  | (k, v) :: p :: rest => "\x27" ++ k ++ "\x27: " ++ pyRepr v ++ ", " ++ pyReprPairs (p :: rest)

end

/-- Python `dict.get k` on an association list built by the JSON parser;
as in a parsed JSON object, a later duplicate key shadows an earlier one. -/
def dictGet : List (String × JVal) → String → Option JVal
  | [], _ => none
  | (k, v) :: rest, key =>
    match dictGet rest key with
    | some w => some w
    | none => if k = key then some v else none

/-- Python `data.get(key, dflt)`. -/
def dictGetD (kvs : List (String × JVal)) (key : String) (dflt : JVal) : JVal :=
  (dictGet kvs key).getD dflt

/-! ### Process supervisor (`server.py` lines 21, 55-117) -/

/-- A spawned external process, identified by the argument vector it was
launched with (`subprocess.Popen(args)`). -/
structure Proc : Type where
  args : List String
deriving DecidableEq

/-- Argument vector of the ffmpeg invocation built by `start_stream`
(lines 63-83).  `source_id` is whatever value the JSON body supplied
(formatted by the f-string via `pyStr`); `framerate` is `str`-formatted. -/
def ffmpegArgs (source_id : JVal) (framerate : Nat) : List String :=
  ["ffmpeg",
   "-f", "avfoundation",
   "-framerate", toString framerate,
   "-capture_cursor", "1",
   "-i", pyStr source_id ++ ":none",
   "-enc_time_base", "1/" ++ toString framerate,
   "-c:v", "h264_videotoolbox",
   "-b:v", "3M",
   "-g", toString framerate,
   "-f", "hls",
   "-hls_time", "1",
   "-hls_list_size", "3",
   "-hls_flags", "delete_segments+independent_segments",
   "-hls_segment_filename", os_path_join HLS_DIR "seg%03d.ts",
   os_path_join HLS_DIR "stream.m3u8"]

/-- The process spawned by `start_stream` for a given source and rate. -/
def mkProc (source_id : JVal) (framerate : Nat) : Proc :=
  ⟨ffmpegArgs source_id framerate⟩

/-- Environment describing the observable behaviour of the spawned process
and the filesystem during the bounded poll loop of `start_stream`:
`exitedAt i` is whether `proc.poll()` reports an exit code at loop
iteration `i` (line 88), and `segAt i` is whether
`os.path.exists(HLS_DIR/stream.m3u8)` holds at iteration `i` (line 93). -/
structure PollEnv : Type where
  exitedAt : Nat → Bool
  segAt : Nat → Bool

/-- Success message of `start_stream` (line 94). -/
def startedMsg : String := "Started"

/-- Message returned when a session already exists (line 59). -/
def alreadyMsg : String := "Already running"

/-- Failure message when the process exits during the poll (line 92). -/
def permMsg : String :=
  "Failed — grant Screen Recording permission to your terminal in System Settings."

/-- Failure message when the poll bound elapses with no output (line 106). -/
def noSegMsg : String :=
  "No segments generated — check screen recording permissions in System Settings."

/-- Sleep between poll iterations, in milliseconds
(`time.sleep(0.25)`, line 87). -/
def pollIntervalMs : Nat := 250

/-- Number of poll iterations (`for _ in range(40)`, line 86). -/
def pollAttempts : Nat := 40

/-- Result of one call to `start_stream`: the `(ok, message)` pair it
returns, the new value of the global `_ffmpeg_proc`, the process this call
spawned (if any), the number of `time.sleep` iterations performed, whether
this call terminated the process itself (lines 99-103), and whether it
cleared and recreated the segment directory (`prepare_hls_dir`, line 61). -/
structure StartResult : Type where
  ok : Bool
  msg : String
  proc : Option Proc
  spawned : Option Proc
  iterations : Nat
  terminated : Bool
  preparedDir : Bool
deriving DecidableEq

/-- The `for _ in range(40)` poll loop of `start_stream` (lines 86-106),
unrolled as fuel recursion: `i` is the index of the next iteration and the
fuel is the number of iterations left.  Each iteration sleeps, then checks
for process exit (early-exit failure, handle cleared), then for the first
manifest file (success, handle kept).  When the fuel runs out the process
is terminated and the distinct no-segments failure is returned with the
handle cleared. -/
def waitLoop (env : PollEnv) (p : Proc) (i : Nat) : Nat → StartResult
  | 0 =>
    { ok := false, msg := noSegMsg, proc := none, spawned := some p,
      iterations := i, terminated := true, preparedDir := true }
  | fuel + 1 =>
    if env.exitedAt i then
      { ok := false, msg := permMsg, proc := none, spawned := some p,
        iterations := i + 1, terminated := false, preparedDir := true }
    else if env.segAt i then
      { ok := true, msg := startedMsg, proc := some p, spawned := some p,
        iterations := i + 1, terminated := false, preparedDir := true }
    else
      waitLoop env p (i + 1) fuel

/-- Default of `start_stream`'s `framerate` parameter (line 55); the HTTP
layer never passes the parameter, so every call uses this value. -/
def defaultFramerate : Nat := 30

/-- The function `start_stream(source_id, framerate=30)` (lines 55-106) on
the explicit handle state `st`: if a process handle exists, report success
immediately and change nothing; otherwise recreate the segment directory,
spawn ffmpeg and run the bounded poll loop. -/
def start_stream (st : Option Proc) (env : PollEnv) (source_id : JVal)
    (framerate : Nat) : StartResult :=
  match st with
  | some p =>
    { ok := true, msg := alreadyMsg, proc := some p, spawned := none,
      iterations := 0, terminated := false, preparedDir := false }
  | none => waitLoop env (mkProc source_id framerate) 0 pollAttempts

/-- Result of `stop_stream`: the new handle value and whether this call
killed a process (and then waited up to 2 s for it, exceptions swallowed,
lines 112-116). -/
structure StopResult : Type where
  proc : Option Proc
  killed : Bool
deriving DecidableEq

/-- The function `stop_stream()` (lines 109-117): kill the process if one
exists, then unconditionally clear the handle. -/
def stop_stream (st : Option Proc) : StopResult :=
  match st with
  | some _ => { proc := none, killed := true }
  | none => { proc := none, killed := false }

/-! ### JSON serialisation (`json.dumps` with its default `ensure_ascii`) -/

/-- Lowercase hexadecimal digit. -/
def hexDigit (n : Nat) : Char :=
  if n < 10 then Char.ofNat (48 + n) else Char.ofNat (87 + n)

/-- A `\uXXXX` escape for a code unit below `0x10000`. -/
def uEscape (n : Nat) : String :=
  "\\u" ++ String.mk [hexDigit (n / 4096 % 16), hexDigit (n / 256 % 16),
                      hexDigit (n / 16 % 16), hexDigit (n % 16)]

/-- Escaping of one character as `json.dumps` does with `ensure_ascii`:
quote, backslash and the short control escapes specially, printable ASCII
verbatim, everything else as `\uXXXX` (surrogate pairs above `0xFFFF`). -/
def jsonEscapeChar (c : Char) : String :=
  if c = '"' then "\\\""
  else if c = '\\' then "\\\\"
  else if c.toNat = 8 then "\\b"
  else if c.toNat = 12 then "\\f"
  else if c.toNat = 10 then "\\n"
  else if c.toNat = 13 then "\\r"
  else if c.toNat = 9 then "\\t"
  else if 32 ≤ c.toNat ∧ c.toNat ≤ 126 then String.mk [c]
  else if c.toNat < 65536 then uEscape c.toNat
  else uEscape (55296 + (c.toNat - 65536) / 1024) ++
       uEscape (56320 + (c.toNat - 65536) % 1024)

/-- String-body escaping for `json.dumps`. -/
def jsonEscape (s : String) : String :=
  String.join (s.data.map jsonEscapeChar)

mutual

/-- Python `json.dumps` of a JSON value, with the default separators
`", "` and `": "` and `ensure_ascii=True`. -/
def jsonDump : JVal → String
  | .str s => "\"" ++ jsonEscape s ++ "\""
  | .bool b => if b then "true" else "false"
  | .int n => toString n
  | .null => "null"
  | .arr xs => "[" ++ jsonDumpSeq xs ++ "]"
  | .obj kvs => "\x7b" ++ jsonDumpPairs kvs ++ "\x7d"

/-- Comma-separated dump of array elements. -/
def jsonDumpSeq : List JVal → String
  | [] => ""
  | [x] => jsonDump x
  | x :: y :: rest => jsonDump x ++ ", " ++ jsonDumpSeq (y :: rest)

/-- Comma-separated dump of object entries. -/
def jsonDumpPairs : List (String × JVal) → String
  | [] => ""
  | [(k, v)] => "\"" ++ jsonEscape k ++ "\": " ++ jsonDump v
  | (k, v) :: p :: rest =>
    "\"" ++ jsonEscape k ++ "\": " ++ jsonDump v ++ ", " ++ jsonDumpPairs (p :: rest)

end

/-! ### HTTP responses and the request handler (`server.py` lines 120-207) -/

/-- An HTTP response as assembled by the handler: status code, the headers
it explicitly sends, and the body bytes (as a string).  The `Server` and
`Date` headers that `BaseHTTPRequestHandler.send_response` always adds are
abstracted away uniformly. -/
structure Response : Type where
  status : Nat
  headers : List (String × String)
  body : String
deriving DecidableEq

/-- Either a response was written, or an exception escaped the handler
method (so no HTTP response is produced for the request). -/
inductive HttpResult : Type where
  | resp (r : Response)
  | exn
deriving DecidableEq

/-- Outcome of `open(filepath, "rb")` followed by `read` for one path:
the content on success, `FileNotFoundError`, or any other `OSError` such
as `IsADirectoryError`. -/
inductive OpenResult : Type where
  | content (data : String)
  | notFound
  | otherError
deriving DecidableEq

/-- The filesystem as seen by `serve_file`. -/
def FS : Type := String → OpenResult

/-- Response assembled by `BaseHTTPRequestHandler.send_error(code)`:
the status code with the handler's standard error headers.  The default
explanatory HTML body is abstracted as empty (its exact text and the
accompanying `Content-Length` never matter here); no further header —
in particular no CORS header — is added. -/
def send_error (code : Nat) : Response :=
  { status := code,
    headers := [("Content-Type", "text/html;charset=utf-8"), ("Connection", "close")],
    body := "" }

/-- The method `Handler.serve_file` (lines 184-196): read the file and
send 200 with content type, length, cache policy and the CORS header;
a `FileNotFoundError` becomes a 404; any other failure propagates. -/
def serve_file (fs : FS) (filepath : String) (content_type : String)
    (cache : Bool) : HttpResult :=
  match fs filepath with
  | .content body =>
    .resp { status := 200,
            headers := [("Content-Type", content_type),
                        ("Content-Length", toString body.utf8ByteSize),
                        ("Cache-Control",
                          if cache then "max-age=60"
                          else "no-cache, no-store, must-revalidate"),
                        ("Access-Control-Allow-Origin", "*")],
            body := body }
  | .notFound => .resp (send_error 404)
  | .otherError => .exn

/-- The method `Handler.send_json` (lines 198-204): dump the dict and send
200 with content type and length — and no other headers. -/
def send_json (kvs : List (String × JVal)) : Response :=
  let body := jsonDump (.obj kvs)
  { status := 200,
    headers := [("Content-Type", "application/json"),
                ("Content-Length", toString body.utf8ByteSize)],
    body := body }

/-- Inline "not active yet" page sent for `GET /` when no session is
active (line 137). -/
def placeholder_body : String :=
  "<html><body style=\x27font-family:sans-serif;display:flex;align-items:center;justify-content:center;height:100vh;margin:0;background:#0a0a0a;color:#888\x27><p>Screen sharing is not active yet. Ask the presenter to start sharing.</p></body></html>"

/-- The placeholder response (lines 138-142): 200 with content type and
length only — no cache policy and no CORS header. -/
def placeholder_response : Response :=
  { status := 200,
    headers := [("Content-Type", "text/html"),
                ("Content-Length", toString placeholder_body.utf8ByteSize)],
    body := placeholder_body }

/-- The function `get_local_ip` (lines 24-32): the environment `ipe` is
the local address reported by the throwaway UDP connection to 8.8.8.8, or
`none` when that raises; on failure the loopback address is returned. -/
def get_local_ip (ipe : Option String) : String :=
  match ipe with
  | some ip => ip
  | none => "127.0.0.1"

/-- One screen entry as extracted by `list_screens` (lines 35-45) from a
line of ffmpeg's device listing matching
`\[(\d+)\] Capture screen (\d+)`: `id` is the first capture group and
`num` the second.  Running ffmpeg and scanning its diagnostic output is an
external effect, so the list of matches is an environment parameter. -/
structure Screen : Type where
  id : String
  num : String
deriving DecidableEq

/-- JSON rendering of the screens list (line 44): each match becomes
`\x7bid, name: "Screen <num>", type: "screen"\x7d`. -/
def screensJson (scr : List Screen) : JVal :=
  .arr (scr.map fun s =>
    .obj [("id", .str s.id), ("name", .str ("Screen " ++ s.num)),
          ("type", .str "screen")])

/-- Filename part of an `/hls/` request: Python `self.path[5:]` (line 144). -/
def hlsFilename (path : String) : String :=
  String.mk (path.data.drop 5)

/-- The method `Handler.do_GET` (lines 129-162) on the explicit handle
state `st`, filesystem `fs`, IP-discovery environment `ipe`, screens
environment `scr` and static directory `sdir` (the runtime value of
`STATIC_DIR`).  GET never mutates the handle.  The checks `if _ffmpeg_proc
is not None` (line 134) and the truthiness test `if _ffmpeg_proc`
(line 157) coincide on the model state and are both `st.isSome`. -/
def do_GET (st : Option Proc) (fs : FS) (ipe : Option String)
    (scr : List Screen) (sdir : String) (path : String) : HttpResult :=
  if path = "/project" then
    serve_file fs (os_path_join sdir "control.html") "text/html" false
  else if path = "/" ∨ path = "/index.html" then
    if st.isSome then
      serve_file fs (os_path_join sdir "viewer.html") "text/html" false
    else
      .resp placeholder_response
  else if strLeads path "/hls/" then
    let filename := hlsFilename path
    if pyIn ".." filename || pyIn "/" filename then
      .resp (send_error 403)
    else
      let filepath := os_path_join HLS_DIR filename
      let ext := splitextExt filename
      let content_type := (List.lookup ext
        [(".html", "text/html"), (".m3u8", "application/vnd.apple.mpegurl"),
         (".ts", "video/mp2t"), (".js", "application/javascript")]).getD
        "application/octet-stream"
      serve_file fs filepath content_type (ext == ".ts")
  else if path = "/api/status" then
    let ip := get_local_ip ipe
    .resp (send_json
      [("running", .bool st.isSome),
       ("ip", .str ip),
       ("viewer_url",
         if st.isSome then .str ("http://" ++ ip ++ ":" ++ toString CONTROL_PORT)
         else .null)])
  else if path = "/api/sources" then
    .resp (send_json [("screens", screensJson scr)])
  else
    .resp (send_error 404)

/-- Outcome of reading and JSON-parsing the request body in `do_POST`
(lines 166-171): no body at all (`content_len = 0`, so `data = \x7b\x7d`
without parsing), a body `json.loads` rejects (`JSONDecodeError`, caught:
`data = \x7b\x7d`), a parsed top-level object, or a parsed value of any
other top-level type (on which the later `data.get` raises). -/
inductive BodyParse : Type where
  | empty
  | invalid
  | dict (kvs : List (String × JVal))
  | nondict (v : JVal)

/-- Result of one `do_POST` dispatch: the response, the new handle state,
and the process spawned during the request (if any). -/
structure PostResult : Type where
  response : HttpResult
  proc : Option Proc
  spawned : Option Proc
deriving DecidableEq

/-- Body of the `/api/start` branch of `do_POST` (lines 172-177) applied
to the already-parsed dict `data`: call `start_stream` with the body's
`id` (falling back to `"3"`) and the default frame rate, then answer with
the structured `ok`/`message`/`url`/`ip` object. -/
def api_start (st : Option Proc) (env : PollEnv) (ipe : Option String)
    (data : List (String × JVal)) : PostResult :=
  let r := start_stream st env (dictGetD data "id" (.str "3")) defaultFramerate
  let ip := get_local_ip ipe
  { response := .resp (send_json
      [("ok", .bool r.ok),
       ("message", .str r.msg),
       ("url",
         if r.ok then .str ("http://" ++ ip ++ ":" ++ toString CONTROL_PORT)
         else .null),
       ("ip", .str ip)]),
    proc := r.proc,
    spawned := r.spawned }

/-- The method `Handler.do_POST` (lines 164-182): `/api/start` parses the
body (empty or malformed become the empty dict) and delegates to
`api_start`; a non-object body makes the `data.get` call raise an
`AttributeError` that escapes before `start_stream` runs; `/api/stop`
calls `stop_stream` and always answers `ok: true`; anything else is 404. -/
def do_POST (st : Option Proc) (env : PollEnv) (ipe : Option String)
    (path : String) (b : BodyParse) : PostResult :=
  if path = "/api/start" then
    match b with
    | .empty => api_start st env ipe []
    | .invalid => api_start st env ipe []
    | .dict kvs => api_start st env ipe kvs
    | .nondict _ => { response := .exn, proc := st, spawned := none }
  else if path = "/api/stop" then
    { response := .resp (send_json [("ok", .bool true), ("message", .str "Stopped")]),
      proc := (stop_stream st).proc,
      spawned := none }
  else
    { response := .resp (send_error 404), proc := st, spawned := none }

/-- Boolean test that a result carries the CORS header
`Access-Control-Allow-Origin: *`. -/
def hasCORS : HttpResult → Bool
  | .resp r => decide (("Access-Control-Allow-Origin", "*") ∈ r.headers)
  | .exn => false

/-! ### Poll-loop lemmas -/

/-- The poll loop always records the process it was given as spawned. -/
theorem waitLoop_spawned (env : PollEnv) (p : Proc) :
    ∀ fuel i, (waitLoop env p i fuel).spawned = some p := by
  intro fuel
  induction fuel with
  | zero => intro i; rfl
  | succ n ih =>
    intro i
    simp only [waitLoop]
    split
    · rfl
    split
    · rfl
    exact ih (i + 1)

/-- The poll loop performs at most `i + fuel` sleep iterations in total. -/
theorem waitLoop_iterations_le (env : PollEnv) (p : Proc) :
    ∀ fuel i, (waitLoop env p i fuel).iterations ≤ i + fuel := by
  intro fuel
  induction fuel with
  | zero => intro i; simp [waitLoop]
  | succ n ih =>
    intro i
    simp only [waitLoop]
    split
    · simp
    split
    · simp
    calc (waitLoop env p (i + 1) n).iterations ≤ (i + 1) + n := ih (i + 1)
      _ ≤ i + (n + 1) := by omega

/-- The poll loop ends in exactly one of the three outcomes: success with
the handle kept, or one of the two failures with the handle cleared. -/
theorem waitLoop_outcomes (env : PollEnv) (p : Proc) :
    ∀ fuel i,
      ((waitLoop env p i fuel).ok = true ∧
        (waitLoop env p i fuel).msg = startedMsg ∧
        (waitLoop env p i fuel).proc = some p) ∨
      ((waitLoop env p i fuel).ok = false ∧
        ((waitLoop env p i fuel).msg = permMsg ∨
          (waitLoop env p i fuel).msg = noSegMsg) ∧
        (waitLoop env p i fuel).proc = none) := by
  intro fuel
  induction fuel with
  | zero => intro i; right; exact ⟨rfl, Or.inr rfl, rfl⟩
  | succ n ih =>
    intro i
    simp only [waitLoop]
    split
    · right; exact ⟨rfl, Or.inl rfl, rfl⟩
    split
    · left; exact ⟨rfl, rfl, rfl⟩
    exact ih (i + 1)

/-- When neither the exit check nor the manifest check fires for the whole
remaining window, the loop falls through to the no-segments failure,
terminating the process after `i + fuel` iterations in total. -/
theorem waitLoop_quiet (env : PollEnv) (p : Proc) :
    ∀ fuel i,
      (∀ j, i ≤ j → j < i + fuel → env.exitedAt j = false ∧ env.segAt j = false) →
      waitLoop env p i fuel =
        { ok := false, msg := noSegMsg, proc := none, spawned := some p,
          iterations := i + fuel, terminated := true, preparedDir := true } := by
  intro fuel
  induction fuel with
  | zero => intro i _; simp [waitLoop]
  | succ n ih =>
    intro i h
    have h0 := h i (Nat.le_refl i) (by omega)
    simp only [waitLoop, h0.1, h0.2, Bool.false_eq_true, if_false]
    rw [ih (i + 1) (fun j hj1 hj2 => h j (by omega) (by omega))]
    congr 1
    omega

/-- When the first check to fire within the window is the exit check at
iteration `k`, the loop returns the permission-hint failure after `k + 1`
iterations, with the handle cleared and no termination by the caller. -/
theorem waitLoop_exit (env : PollEnv) (p : Proc) :
    ∀ fuel i k, i ≤ k → k < i + fuel → env.exitedAt k = true →
      (∀ j, i ≤ j → j < k → env.exitedAt j = false ∧ env.segAt j = false) →
      waitLoop env p i fuel =
        { ok := false, msg := permMsg, proc := none, spawned := some p,
          iterations := k + 1, terminated := false, preparedDir := true } := by
  intro fuel
  induction fuel with
  | zero => intro i k h1 h2 _ _; omega
  | succ n ih =>
    intro i k h1 h2 hk hq
    by_cases hik : i = k
    · subst hik
      simp [waitLoop, hk]
    · have hlt : i < k := Nat.lt_of_le_of_ne h1 hik
      have h0 := hq i (Nat.le_refl i) hlt
      simp only [waitLoop, h0.1, h0.2, Bool.false_eq_true, if_false]
      exact ih (i + 1) k (by omega) (by omega) hk (fun j hj1 hj2 => hq j (by omega) hj2)

/-! ### Claim theorems -/

/-- C1: at most one capture session exists at any time — when a process
handle is present, `start_stream` returns success immediately with the
message "Already running", spawns no second external process, performs no
poll iteration, does not touch the segment directory, and leaves the
handle unchanged. -/
theorem start_stream_already_running (p : Proc) (env : PollEnv) (sid : JVal)
    (fr : Nat) :
    start_stream (some p) env sid fr =
      { ok := true, msg := "Already running", proc := some p, spawned := none,
        iterations := 0, terminated := false, preparedDir := false } := rfl

/-- C2: every GET request whose path starts with `/hls/` and whose
remaining filename contains `..` or `/` is answered 403.  The conclusion
holds for every filesystem `fs`, every handle state and every environment,
so the response is independent of the filesystem: no file is accessed and
existence of the named file is irrelevant. -/
theorem hls_traversal_rejected (st : Option Proc) (fs : FS) (ipe : Option String)
    (scr : List Screen) (sdir : String) (path : String)
    (h1 : strLeads path "/hls/" = true)
    (h2 : pyIn ".." (hlsFilename path) = true ∨ pyIn "/" (hlsFilename path) = true) :
    do_GET st fs ipe scr sdir path = .resp (send_error 403) := by
  have hne1 : ¬(path = "/project") := by
    intro he; rw [he] at h1; exact absurd h1 (by decide)
  have hne2 : ¬(path = "/" ∨ path = "/index.html") := by
    intro he
    cases he with
    | inl h => rw [h] at h1; exact absurd h1 (by decide)
    | inr h => rw [h] at h1; exact absurd h1 (by decide)
  have hcond : (pyIn ".." (hlsFilename path) || pyIn "/" (hlsFilename path)) = true := by
    cases h2 with
    | inl h => rw [h]; rfl
    | inr h => rw [h]; simp
  simp only [do_GET, if_neg hne1, if_neg hne2, if_pos h1, hcond, if_true]

/-- Witness for C2 at the concrete path `/hls/../x`. -/
theorem hls_traversal_rejected_witness :
    strLeads "/hls/../x" "/hls/" = true ∧
    pyIn ".." (hlsFilename "/hls/../x") = true ∧
    do_GET none (fun _ => OpenResult.notFound) none [] "/static" "/hls/../x" =
      .resp (send_error 403) :=
  ⟨by decide, by decide,
   hls_traversal_rejected none (fun _ => OpenResult.notFound) none [] "/static"
     "/hls/../x" (by decide) (Or.inl (by decide))⟩

/-- C3: `start_stream` from the idle state has exactly two failure
outcomes.  If the process exit check is the first to fire (iteration `k`),
the result is the permission-hint failure after `k + 1` polls with the
handle cleared; if neither check ever fires within the bound, the caller
terminates the process and reports the distinct no-segments failure with
the handle cleared; and every failing result carries one of those two
messages and leaves no session active. -/
theorem start_stream_failure_modes (env : PollEnv) (sid : JVal) (fr : Nat) :
    (∀ k, k < pollAttempts → env.exitedAt k = true →
      (∀ j, j < k → env.exitedAt j = false ∧ env.segAt j = false) →
      start_stream none env sid fr =
        { ok := false, msg := permMsg, proc := none,
          spawned := some (mkProc sid fr), iterations := k + 1,
          terminated := false, preparedDir := true }) ∧
    ((∀ i, i < pollAttempts → env.exitedAt i = false ∧ env.segAt i = false) →
      start_stream none env sid fr =
        { ok := false, msg := noSegMsg, proc := none,
          spawned := some (mkProc sid fr), iterations := pollAttempts,
          terminated := true, preparedDir := true }) ∧
    ((start_stream none env sid fr).ok = false →
      ((start_stream none env sid fr).msg = permMsg ∨
        (start_stream none env sid fr).msg = noSegMsg) ∧
      (start_stream none env sid fr).proc = none) := by
  refine ⟨?_, ?_, ?_⟩
  · intro k hk hke hq
    show waitLoop env (mkProc sid fr) 0 pollAttempts = _
    exact waitLoop_exit env (mkProc sid fr) pollAttempts 0 k (Nat.zero_le k)
      (by omega) hke (fun j _ hj => hq j hj)
  · intro h
    show waitLoop env (mkProc sid fr) 0 pollAttempts = _
    rw [waitLoop_quiet env (mkProc sid fr) pollAttempts 0
      (fun j _ hj => h j (by omega))]
    congr 1
  · intro hok
    rcases waitLoop_outcomes env (mkProc sid fr) pollAttempts 0 with h | h
    · exact absurd hok (by rw [show (start_stream none env sid fr).ok = true from h.1]; simp)
    · exact ⟨h.2.1, h.2.2⟩

/-- Witness for C3: an environment whose process exits at the first poll
gives the permission-hint failure after one iteration, and an environment
where nothing ever happens gives the no-segments failure after all 40. -/
theorem start_stream_failure_modes_witness :
    start_stream none ⟨fun _ => true, fun _ => false⟩ (.str "3") 30 =
      { ok := false, msg := permMsg, proc := none,
        spawned := some (mkProc (.str "3") 30), iterations := 1,
        terminated := false, preparedDir := true } ∧
    start_stream none ⟨fun _ => false, fun _ => false⟩ (.str "3") 30 =
      { ok := false, msg := noSegMsg, proc := none,
        spawned := some (mkProc (.str "3") 30), iterations := 40,
        terminated := true, preparedDir := true } :=
  ⟨(start_stream_failure_modes ⟨fun _ => true, fun _ => false⟩ (.str "3") 30).1
      0 (by decide) rfl (fun j hj => absurd hj (Nat.not_lt_zero j)),
   (start_stream_failure_modes ⟨fun _ => false, fun _ => false⟩ (.str "3") 30).2.1
      (fun i _ => ⟨rfl, rfl⟩)⟩

/-- C4: a POST `/api/start` body rejected by the JSON parser — and
likewise an absent body — is treated exactly like an empty object, the
start proceeds with the fallback id `"3"` and the default frame rate, and
the outcome is surfaced as a structured 200 JSON result (never as an
unhandled fault). -/
theorem malformed_body_defaults (st : Option Proc) (env : PollEnv)
    (ipe : Option String) :
    do_POST st env ipe "/api/start" .invalid =
      do_POST st env ipe "/api/start" (.dict []) ∧
    do_POST st env ipe "/api/start" .empty =
      do_POST st env ipe "/api/start" (.dict []) ∧
    (do_POST st env ipe "/api/start" .invalid).response =
      .resp (send_json
        [("ok", .bool (start_stream st env (.str "3") defaultFramerate).ok),
         ("message", .str (start_stream st env (.str "3") defaultFramerate).msg),
         ("url",
           if (start_stream st env (.str "3") defaultFramerate).ok then
             .str ("http://" ++ get_local_ip ipe ++ ":" ++ toString CONTROL_PORT)
           else .null),
         ("ip", .str (get_local_ip ipe))]) :=
  ⟨rfl, rfl, rfl⟩

/-- C5: `stop_stream` is idempotent and total — it always clears the
handle, kills a process exactly when one exists, stopping twice in a row
behaves like stopping from idle, and POST `/api/stop` answers
`ok: true` in every state. -/
theorem stop_idempotent_total :
    (∀ st, (stop_stream st).proc = none) ∧
    (stop_stream none).killed = false ∧
    (∀ p, (stop_stream (some p)).killed = true) ∧
    (∀ st, stop_stream ((stop_stream st).proc) = stop_stream none) ∧
    (∀ st env ipe b, do_POST st env ipe "/api/stop" b =
      { response := .resp (send_json [("ok", .bool true), ("message", .str "Stopped")]),
        proc := none, spawned := none }) := by
  refine ⟨fun st => ?_, rfl, fun p => rfl, fun st => ?_, fun st env ipe b => ?_⟩
  · cases st <;> rfl
  · cases st <;> rfl
  · cases st <;> rfl

/-- C6 counterexample: the claim "every HTTP response carries
`Access-Control-Allow-Origin: *`" is false — the `/api/status` JSON
response (built by `send_json`) carries no such header. -/
theorem status_response_lacks_cors :
    hasCORS (do_GET none (fun _ => OpenResult.notFound) (some "192.168.1.7")
      [] "/static" "/api/status") = false := rfl

/-- C6 amended: only the successful file responses built by `serve_file`
carry `Access-Control-Allow-Origin: *`; JSON responses built by
`send_json`, error responses built by `send_error`, and the inline
placeholder page carry no such header. -/
theorem cors_header_only_on_file_responses :
    (∀ (fs : FS) (fp ct : String) (cache : Bool) (d : String),
      fs fp = OpenResult.content d → hasCORS (serve_file fs fp ct cache) = true) ∧
    (∀ kvs, hasCORS (.resp (send_json kvs)) = false) ∧
    (∀ n, hasCORS (.resp (send_error n)) = false) ∧
    hasCORS (.resp placeholder_response) = false := by
  refine ⟨fun fs fp ct cache d hfs => ?_, fun kvs => ?_, fun n => ?_, rfl⟩
  · simp [serve_file, hfs, hasCORS]
  · simp [send_json, hasCORS]
  · rfl

/-- Witness for C6's amended claim on a concrete filesystem. -/
theorem cors_header_only_on_file_responses_witness :
    hasCORS (serve_file (fun _ => OpenResult.content "x") "/f" "text/html" false) = true :=
  cors_header_only_on_file_responses.1 (fun _ => OpenResult.content "x")
    "/f" "text/html" false "x" rfl

/-- C7: `GET /api/status` reports `running = false` and a null
`viewer_url` exactly when no session is active, and when a session is
active it reports `running = true` with `viewer_url` the http URL built
from the discovered address and the fixed control port; IP discovery falls
back to 127.0.0.1 when the throwaway outbound connection fails. -/
theorem status_endpoint (fs : FS) (ipe : Option String) (scr : List Screen)
    (sdir : String) :
    do_GET none fs ipe scr sdir "/api/status" =
      .resp (send_json
        [("running", .bool false), ("ip", .str (get_local_ip ipe)),
         ("viewer_url", .null)]) ∧
    (∀ p, do_GET (some p) fs ipe scr sdir "/api/status" =
      .resp (send_json
        [("running", .bool true), ("ip", .str (get_local_ip ipe)),
         ("viewer_url",
           .str ("http://" ++ get_local_ip ipe ++ ":" ++ toString CONTROL_PORT))])) ∧
    get_local_ip none = "127.0.0.1" :=
  ⟨rfl, fun _ => rfl, rfl⟩

/-- C8: `start_stream` always returns a definite `(ok, message)` result
after at most 40 poll iterations of 250 ms each (at most 10 seconds of
sleeping), and the result is success ("Already running" or "Started"), the
early-exit failure, or the no-output failure. -/
theorem start_stream_bounded (st : Option Proc) (env : PollEnv) (sid : JVal)
    (fr : Nat) :
    (start_stream st env sid fr).iterations ≤ pollAttempts ∧
    (start_stream st env sid fr).iterations * pollIntervalMs ≤ 10000 ∧
    (((start_stream st env sid fr).ok = true ∧
        ((start_stream st env sid fr).msg = "Already running" ∨
          (start_stream st env sid fr).msg = "Started")) ∨
      ((start_stream st env sid fr).ok = false ∧
        ((start_stream st env sid fr).msg = permMsg ∨
          (start_stream st env sid fr).msg = noSegMsg))) := by
  cases st with
  | some p =>
    exact ⟨by simp [start_stream, pollAttempts], by simp [start_stream],
      Or.inl ⟨rfl, Or.inl rfl⟩⟩
  | none =>
    have hle : (start_stream none env sid fr).iterations ≤ pollAttempts := by
      have := waitLoop_iterations_le env (mkProc sid fr) pollAttempts 0
      simpa [start_stream] using this
    refine ⟨hle, ?_, ?_⟩
    · have h40 : pollAttempts = 40 := rfl
      have h250 : pollIntervalMs = 250 := rfl
      rw [h250]
      rw [h40] at hle
      omega
    · rcases waitLoop_outcomes env (mkProc sid fr) pollAttempts 0 with h | h
      · exact Or.inl ⟨h.1, Or.inr h.2.1⟩
      · exact Or.inr ⟨h.1, h.2.1⟩

/-- C9: the HTTP interface never passes `start_stream`'s frame-rate
parameter, so every process a POST `/api/start` request spawns is launched
with the default frame rate 30 (the argument vector carries
`-framerate 30`), and a body without an `"id"` field makes the fixed
fallback source identifier `"3"` be captured. -/
theorem api_start_defaults (env : PollEnv) (ipe : Option String)
    (kvs : List (String × JVal)) (h : dictGet kvs "id" = none) :
    (do_POST none env ipe "/api/start" (.dict kvs)).spawned =
      some (mkProc (.str "3") defaultFramerate) ∧
    (∀ st b pr, (do_POST st env ipe "/api/start" b).spawned = some pr →
      ∃ sid, pr = mkProc sid defaultFramerate) ∧
    occurs ["-framerate", "30"] (ffmpegArgs (.str "3") defaultFramerate) = true := by
  refine ⟨?_, ?_, by decide⟩
  · show (api_start none env ipe kvs).spawned = _
    simp only [api_start, start_stream, dictGetD, h, Option.getD]
    exact waitLoop_spawned env (mkProc (.str "3") defaultFramerate) pollAttempts 0
  · intro st b pr hpr
    cases b with
    | nondict v => exact absurd hpr (by simp [do_POST])
    | empty =>
      cases st with
      | some _ => exact absurd hpr (by simp [do_POST, api_start, start_stream])
      | none =>
        refine ⟨dictGetD [] "id" (.str "3"), ?_⟩
        have hsp := waitLoop_spawned env (mkProc (dictGetD [] "id" (.str "3")) defaultFramerate) pollAttempts 0
        have : (do_POST none env ipe "/api/start" BodyParse.empty).spawned =
            some (mkProc (dictGetD [] "id" (.str "3")) defaultFramerate) := hsp
        rw [this] at hpr
        exact (Option.some.injEq _ _ ▸ hpr).symm
    | invalid =>
      cases st with
      | some _ => exact absurd hpr (by simp [do_POST, api_start, start_stream])
      | none =>
        refine ⟨dictGetD [] "id" (.str "3"), ?_⟩
        have hsp := waitLoop_spawned env (mkProc (dictGetD [] "id" (.str "3")) defaultFramerate) pollAttempts 0
        have : (do_POST none env ipe "/api/start" BodyParse.invalid).spawned =
            some (mkProc (dictGetD [] "id" (.str "3")) defaultFramerate) := hsp
        rw [this] at hpr
        exact (Option.some.injEq _ _ ▸ hpr).symm
    | dict kvs2 =>
      cases st with
      | some _ => exact absurd hpr (by simp [do_POST, api_start, start_stream])
      | none =>
        refine ⟨dictGetD kvs2 "id" (.str "3"), ?_⟩
        have hsp := waitLoop_spawned env (mkProc (dictGetD kvs2 "id" (.str "3")) defaultFramerate) pollAttempts 0
        have : (do_POST none env ipe "/api/start" (BodyParse.dict kvs2)).spawned =
            some (mkProc (dictGetD kvs2 "id" (.str "3")) defaultFramerate) := hsp
        rw [this] at hpr
        exact (Option.some.injEq _ _ ▸ hpr).symm

/-- Witness for C9 with an empty JSON object body. -/
theorem api_start_defaults_witness :
    dictGet [] "id" = none ∧
    (do_POST none ⟨fun _ => false, fun _ => true⟩ none "/api/start"
        (.dict [])).spawned = some (mkProc (.str "3") defaultFramerate) :=
  ⟨rfl, (api_start_defaults ⟨fun _ => false, fun _ => true⟩ none [] rfl).1⟩

/-- C10: `serve_file` answers 404 exactly when the open raises
file-not-found, any other open failure escapes unhandled, and the request
path `/hls/` — whose empty filename passes the traversal filter — resolves
to the segment directory itself, whose open failure is therefore not
mapped to 404. -/
theorem serve_file_404_iff_not_found :
    (∀ (fs : FS) (fp ct : String) (cache : Bool),
      serve_file fs fp ct cache = .resp (send_error 404) ↔
        fs fp = OpenResult.notFound) ∧
    (∀ (fs : FS) (fp ct : String) (cache : Bool),
      fs fp = OpenResult.otherError → serve_file fs fp ct cache = .exn) ∧
    os_path_join HLS_DIR (hlsFilename "/hls/") = "/tmp/projector-stream/" ∧
    (∀ (st : Option Proc) (fs : FS) (ipe : Option String) (scr : List Screen)
        (sdir : String),
      fs "/tmp/projector-stream/" = OpenResult.otherError →
      do_GET st fs ipe scr sdir "/hls/" = .exn) := by
  refine ⟨fun fs fp ct cache => ?_, fun fs fp ct cache h => ?_, by decide,
    fun st fs ipe scr sdir hfs => ?_⟩
  · cases h : fs fp with
    | content d => simp [serve_file, h, send_error]
    | notFound => simp [serve_file, h]
    | otherError => simp [serve_file, h]
  · simp [serve_file, h]
  · have hroute : do_GET st fs ipe scr sdir "/hls/" =
        serve_file fs "/tmp/projector-stream/" "application/octet-stream" false := rfl
    rw [hroute]
    simp [serve_file, hfs]

/-- Witness for C10 on concrete filesystems: a missing file maps to 404
and a directory-open failure on `/hls/` escapes unhandled. -/
theorem serve_file_404_iff_not_found_witness :
    serve_file (fun _ => OpenResult.notFound) "/a" "t" false =
      .resp (send_error 404) ∧
    do_GET none (fun _ => OpenResult.otherError) none [] "/s" "/hls/" = .exn :=
  ⟨(serve_file_404_iff_not_found.1 (fun _ => OpenResult.notFound) "/a" "t" false).mpr rfl,
   serve_file_404_iff_not_found.2.2.2 none (fun _ => OpenResult.otherError) none [] "/s" rfl⟩

end Projector
